import Mathlib

/-!
Verification development for the BoeBot rescue controller
(src/Webots - Version/boebot_rescue.c).

The controller is a single synchronous loop: each tick it reads three
distance sensors (with object recognition), an accelerometer, classifies
recognized objects as survivors, resolves one of four robot states with a
fixed precedence, and drives two wheels and two LEDs accordingly.  A
one-shot message is emitted on the rising edge of survivor detection and a
countdown timer forces the DEPLOYING_AID state while it runs down.

Distances, accelerations and wheel speeds are embedded as rationals; the
aid-deploy counter is an integer (as in the C source, where it is a C
`int`).  Device handles that may be absent are embedded as `Option`.
-/

namespace BoebotRescue

/-- The four robot states of the C enum `RobotState` (lines 46-52). -/
inductive RobotState where
  | SEARCHING
  | AVOIDING_OBSTACLE
  | DEPLOYING_AID
  | ROBOT_TILTED
  deriving DecidableEq, Repr

open RobotState

/-- `FORWARD_SPEED` (line 26). -/
def FORWARD_SPEED : ℚ := 5

/-- `TURN_SPEED` (line 27). -/
def TURN_SPEED : ℚ := 4

/-- `AID_DEPLOY_DURATION` (line 31). -/
def AID_DEPLOY_DURATION : ℤ := 50

/-- `OBSTACLE_DISTANCE_THRESHOLD` (line 35), 0.3 meters. -/
def OBSTACLE_DISTANCE_THRESHOLD : ℚ := 3/10

/-- `TILT_THRESHOLD` (line 36), 3.5. -/
def TILT_THRESHOLD : ℚ := 7/2

/-- `SURVIVOR_DETECTION_RANGE` (line 37), 0.4 meters. -/
def SURVIVOR_DETECTION_RANGE : ℚ := 2/5

/-- `SURVIVOR_OBJECT_NAME` (line 40). -/
def SURVIVOR_OBJECT_NAME : String := "SurvivorObstacle"

/-- `SURVIVOR_MESSAGE` (line 43). -/
def SURVIVOR_MESSAGE : String := "SURVIVOR_FOUND"

/-- A recognized-object node reference.  `none` embeds a NULL `WbNodeRef`;
`some nm` embeds a non-null node whose supervisor name lookup returns `nm`,
where `nm = none` embeds a NULL `const char *` result. -/
abbrev NodeRef : Type := Option (Option String)

/-- `is_survivor` (lines 59-69): NULL node gives false; otherwise true iff
the name lookup succeeds and the name compares equal to
`SURVIVOR_OBJECT_NAME` under `strcmp`. -/
def is_survivor (node : NodeRef) : Bool :=
  match node with
  | none => false
  | some node_name =>
    match node_name with
    | some nm => nm = SURVIVOR_OBJECT_NAME
    | none => false

/-- One distance-sensor device as seen by the loop body: `none` if the
device handle was not found at startup (line 98 guard); otherwise the
current reading together with the recognized-object list of this tick. -/
abbrev DistSensor : Type := Option (ℚ × List NodeRef)

/-- The reading used for slot `i` of `ds_values` (lines 121-126): the
sentinel 999.0 when the device is absent, else the sensor value. -/
def ds_value (s : DistSensor) : ℚ :=
  match s with
  | none => 999
  | some (v, _) => v

/-- The inner recognized-object loop for one sensor (lines 130-142):
scans objects in order and stops at the first object that classifies as a
survivor while the sensor reading is strictly below
`SURVIVOR_DETECTION_RANGE`. -/
def scanObjects (v : ℚ) : List NodeRef → Bool
  | [] => false
  | obj :: rest =>
    if is_survivor obj ∧ v < SURVIVOR_DETECTION_RANGE then true
    else scanObjects v rest

/-- One iteration of the outer sensor loop body (lines 124-143) for a
single sensor: an absent device contributes nothing. -/
def scanSensor (s : DistSensor) : Bool :=
  match s with
  | none => false
  | some (v, objs) => scanObjects v objs

/-- The outer sensor loop (lines 124-145): scans the sensors in order and
breaks at the first sensor that detected a survivor. -/
def survivorScan : List DistSensor → Bool
  | [] => false
  | s :: rest => if scanSensor s then true else survivorScan rest

/-- Tilt computation (lines 147-151): absent accelerometer leaves
`tilted = false`; otherwise tilted iff either of the first two axes has
absolute value above `TILT_THRESHOLD`. -/
def tiltCheck (accel : Option (ℚ × ℚ)) : Bool :=
  match accel with
  | none => false
  | some (a0, a1) =>
    decide (|a0| > TILT_THRESHOLD) || decide (|a1| > TILT_THRESHOLD)

/-- Result of one state-machine evaluation (lines 153-191): the resolved
state, the value of `aid_deploy_counter` after the tick, and whether the
survivor-edge send branch (lines 173-177) was reached. -/
structure StepResult where
  state : RobotState
  timer : ℤ
  sendAttempt : Bool
  deriving DecidableEq, Repr

/-- Event evaluation (lines 163-190), executed only when
`actively_deploying_aid` is false.  `counter` is the value of
`aid_deploy_counter` after the timer block. -/
def afterTimer (current_state : RobotState) (counter : ℤ)
    (tilted survivor_detected : Bool) (ds_front : ℚ) : StepResult :=
  if tilted then
    ⟨ROBOT_TILTED, counter, false⟩
  else if survivor_detected then
    if current_state ≠ DEPLOYING_AID then
      ⟨DEPLOYING_AID, AID_DEPLOY_DURATION, true⟩
    else
      ⟨current_state, counter, false⟩
  else if ds_front < OBSTACLE_DISTANCE_THRESHOLD then
    ⟨AVOIDING_OBSTACLE, counter, false⟩
  else
    ⟨SEARCHING, counter, false⟩

/-- The per-tick state transition (lines 153-191): the timer block
(lines 157-161) decrements a positive counter and, when the decremented
value is still nonzero, forces `DEPLOYING_AID` and suppresses all event
evaluation; otherwise event evaluation runs on the (possibly decremented)
counter. -/
def stepSM (current_state : RobotState) (aid_deploy_counter : ℤ)
    (tilted survivor_detected : Bool) (ds_front : ℚ) : StepResult :=
  if aid_deploy_counter > 0 then
    if aid_deploy_counter - 1 = 0 then
      afterTimer current_state (aid_deploy_counter - 1) tilted
        survivor_detected ds_front
    else
      ⟨DEPLOYING_AID, aid_deploy_counter - 1, false⟩
  else
    afterTimer current_state aid_deploy_counter tilted survivor_detected
      ds_front

/-- Actuator commands produced by lines 193-224: wheel velocities and the
two LED values after the reset (lines 194-195) and the per-state switch. -/
structure Actuation where
  left_speed : ℚ
  right_speed : ℚ
  left_led : Bool
  right_led : Bool
  deriving DecidableEq, Repr

/-- Action execution (lines 193-224).  `aid_deploy_counter` is the counter
value at the switch (already decremented this tick); `ds_left` and
`ds_right` are `ds_values[1]` and `ds_values[2]`. -/
def actuate (current_state : RobotState) (aid_deploy_counter : ℤ)
    (ds_left ds_right : ℚ) : Actuation :=
  match current_state with
  | ROBOT_TILTED => ⟨0, 0, true, true⟩
  | DEPLOYING_AID =>
    if aid_deploy_counter % 4 < 2 then ⟨0, 0, true, true⟩
    else ⟨0, 0, false, false⟩
  | AVOIDING_OBSTACLE =>
    if ds_left < ds_right then ⟨TURN_SPEED, -TURN_SPEED, false, false⟩
    else ⟨-TURN_SPEED, TURN_SPEED, false, false⟩
  | SEARCHING => ⟨FORWARD_SPEED, FORWARD_SPEED, false, false⟩

/-- The optional devices read inside the loop, plus emitter presence.
Each `Option` is `none` exactly when `wb_robot_get_device` returned a null
handle at startup. -/
structure Devices where
  ds_front : DistSensor
  ds_left : DistSensor
  ds_right : DistSensor
  accelerometer : Option (ℚ × ℚ)
  emitter : Bool

/-- Observable outcome of one full loop iteration. -/
structure TickResult where
  state : RobotState
  timer : ℤ
  sent : Bool
  act : Actuation
  deriving DecidableEq, Repr

/-- One full loop iteration (lines 116-236): build the sensor frame, run
the state machine, and actuate.  The message is actually sent only when
the send branch is reached and the emitter handle exists (line 174);
emitter absence changes nothing else. -/
def tick (d : Devices) (current_state : RobotState)
    (aid_deploy_counter : ℤ) : TickResult :=
  let v0 := ds_value d.ds_front
  let v1 := ds_value d.ds_left
  let v2 := ds_value d.ds_right
  let survivor := survivorScan [d.ds_front, d.ds_left, d.ds_right]
  let tilted := tiltCheck d.accelerometer
  let r := stepSM current_state aid_deploy_counter tilted survivor v0
  { state := r.state
    timer := r.timer
    sent := r.sendAttempt && d.emitter
    act := actuate r.state r.timer v1 v2 }

/-- Startup device check (line 90): a missing wheel motor makes `main`
return 1 before the loop; otherwise startup succeeds (`none` = no early
exit). -/
def startupExitCode (left_motor right_motor : Bool) : Option ℕ :=
  if !left_motor || !right_motor then some 1 else none

/-- Persistent loop state together with a count of emitted sends, for
multi-tick runs of the state machine. -/
structure LoopState where
  state : RobotState
  timer : ℤ
  sends : ℕ
  deriving DecidableEq, Repr

/-- One multi-tick step on frame `f = (tilted, survivor, ds_front)`. -/
def runStep (ls : LoopState) (f : Bool × Bool × ℚ) : LoopState :=
  let r := stepSM ls.state ls.timer f.1 f.2.1 f.2.2
  ⟨r.state, r.timer, ls.sends + (if r.sendAttempt then 1 else 0)⟩

/-- Run the state machine over a list of frames. -/
def runSM (ls : LoopState) : List (Bool × Bool × ℚ) → LoopState
  | [] => ls
  | f :: rest => runSM (runStep ls f) rest

/-- The counter value after the timer block alone (lines 157-158):
decremented when positive, untouched otherwise. -/
def decTimer (t : ℤ) : ℤ := if t > 0 then t - 1 else t

/-- Shared characterization of `stepSM` as a flattened precedence list. -/
lemma stepSM_eq (s : RobotState) (t : ℤ)
    (tilted survivor : Bool) (front : ℚ) :
    stepSM s t tilted survivor front =
      if 1 < t then ⟨DEPLOYING_AID, t - 1, false⟩
      else if tilted then ⟨ROBOT_TILTED, decTimer t, false⟩
      else if survivor then
        (if s = DEPLOYING_AID then ⟨s, decTimer t, false⟩
         else ⟨DEPLOYING_AID, AID_DEPLOY_DURATION, true⟩)
      else if front < OBSTACLE_DISTANCE_THRESHOLD then
        ⟨AVOIDING_OBSTACLE, decTimer t, false⟩
      else ⟨SEARCHING, decTimer t, false⟩ := by
  unfold stepSM afterTimer decTimer
  split_ifs <;> simp_all <;> omega

/-- Splitting a run of the state machine at a list append. -/
lemma runSM_append (l1 l2 : List (Bool × Bool × ℚ)) :
    ∀ ls, runSM ls (l1 ++ l2) = runSM (runSM ls l1) l2 := by
  induction l1 with
  | nil => intro ls; rfl
  | cons f rest ih => intro ls; simp [runSM, ih]

/-- While the counter exceeds the number of remaining ticks, every tick is
forced to DEPLOYING_AID and only decrements the counter; no sends occur. -/
lemma runSM_replicate_forced (n : ℕ) :
    ∀ (t : ℤ) (c : ℕ) (fr : Bool × Bool × ℚ), (n : ℤ) < t →
      runSM ⟨DEPLOYING_AID, t, c⟩ (List.replicate n fr) =
        ⟨DEPLOYING_AID, t - n, c⟩ := by
  induction n with
  | zero => intro t c fr h; simp [runSM]
  | succ n ih =>
    intro t c fr h
    have h1 : 1 < t := by push_cast at h; omega
    rw [List.replicate_succ]
    show runSM (runStep ⟨DEPLOYING_AID, t, c⟩ fr) (List.replicate n fr) = _
    have hstep : runStep ⟨DEPLOYING_AID, t, c⟩ fr = ⟨DEPLOYING_AID, t - 1, c⟩ := by
      unfold runStep
      rw [stepSM_eq]
      simp [h1]
    rw [hstep, ih (t - 1) c fr (by push_cast at h ⊢; omega)]
    simp only [LoopState.mk.injEq, and_true, true_and]
    push_cast
    ring

/-- C1: the per-tick transition is the total function `stepSM` of
(state, timer, frame); this characterization flattens it into the
spec precedence list: timer override (decrement, and force DEPLOYING_AID
while still positive, suppressing everything below), then tilt, then
survivor detection (only when not already DEPLOYING_AID: arm timer, emit),
then obstacle, then the SEARCHING default.  The result is always exactly
one of the four states, and determinism is immediate since `stepSM` is a
function. -/
theorem c1_transition_precedence (s : RobotState) (t : ℤ)
    (tilted survivor : Bool) (front : ℚ) :
    stepSM s t tilted survivor front =
      if 1 < t then ⟨DEPLOYING_AID, t - 1, false⟩
      else if tilted then ⟨ROBOT_TILTED, decTimer t, false⟩
      else if survivor then
        (if s = DEPLOYING_AID then ⟨s, decTimer t, false⟩
         else ⟨DEPLOYING_AID, AID_DEPLOY_DURATION, true⟩)
      else if front < OBSTACLE_DISTANCE_THRESHOLD then
        ⟨AVOIDING_OBSTACLE, decTimer t, false⟩
      else ⟨SEARCHING, decTimer t, false⟩ :=
  stepSM_eq s t tilted survivor front

/-- C2: the send and the timer arming are edge-triggered.  While the
current state is already DEPLOYING_AID, detection never sends and never
re-arms (the timer only undergoes its normal decrement); while the timer
forces DEPLOYING_AID (decremented value still positive) nothing below the
timer block runs, so again no send and no re-arm; and over 10 consecutive
detection ticks from SEARCHING with timer 0, every tick of the run is in
DEPLOYING_AID with exactly one send in total. -/
theorem c2_one_shot_per_episode :
    (∀ (t : ℤ) (tilted : Bool) (front : ℚ),
      (stepSM DEPLOYING_AID t tilted true front).sendAttempt = false ∧
      (stepSM DEPLOYING_AID t tilted true front).timer = decTimer t) ∧
    (∀ (s : RobotState) (t : ℤ) (tilted survivor : Bool) (front : ℚ),
      1 < t →
        (stepSM s t tilted survivor front).sendAttempt = false ∧
        (stepSM s t tilted survivor front).timer = t - 1) ∧
    (∀ k : ℕ, k < 11 → 0 < k →
      (runSM ⟨SEARCHING, 0, 0⟩
          (List.replicate k (false, true, 999))).state = DEPLOYING_AID ∧
      (runSM ⟨SEARCHING, 0, 0⟩
          (List.replicate k (false, true, 999))).sends = 1) := by
  refine ⟨?_, ?_, ?_⟩
  · intro t tilted front
    rw [stepSM_eq]
    unfold decTimer
    split_ifs <;> simp_all <;> omega
  · intro s t tilted survivor front ht
    rw [stepSM_eq]
    split_ifs <;> simp_all
  · decide

/-- Witness for C2 at concrete inputs. -/
theorem c2_one_shot_per_episode_witness :
    (stepSM DEPLOYING_AID 0 false true 999).sendAttempt = false ∧
    (stepSM SEARCHING 5 false true 999).sendAttempt = false ∧
    (runSM ⟨SEARCHING, 0, 0⟩
        (List.replicate 10 (false, true, 999))).sends = 1 :=
  ⟨(c2_one_shot_per_episode.1 0 false 999).1,
   (c2_one_shot_per_episode.2.1 SEARCHING 5 false true 999 (by decide)).1,
   (c2_one_shot_per_episode.2.2 10 (by decide) (by decide)).2⟩

set_option maxRecDepth 8192 in
/-- C3: the counter stays nonnegative; it is armed to
`AID_DEPLOY_DURATION` (50) on the rising edge of detection (not tilted,
detection true, state not already DEPLOYING_AID, timer not forcing);
while positive it is decremented once per tick (to `t - 1`, unless the
rising edge re-arms it); while the decremented value is still positive
the state is forced to DEPLOYING_AID with everything else suppressed; and
the tick on which the counter reaches 0 (input value 1) runs the normal
event evaluation `afterTimer` on current sensors instead of forcing
DEPLOYING_AID.  Concretely, armed to 50 with no tilt, no detection and a
clear front, tick 49 still forces DEPLOYING_AID and tick 50 resolves to
SEARCHING with the counter at 0. -/
theorem c3_timer_behavior :
    (∀ (s : RobotState) (t : ℤ) (tilted survivor : Bool) (front : ℚ),
      0 ≤ t → 0 ≤ (stepSM s t tilted survivor front).timer) ∧
    (∀ (s : RobotState) (t : ℤ) (front : ℚ), s ≠ DEPLOYING_AID → ¬ 1 < t →
      stepSM s t false true front =
        ⟨DEPLOYING_AID, AID_DEPLOY_DURATION, true⟩) ∧
    (∀ (s : RobotState) (t : ℤ) (tilted survivor : Bool) (front : ℚ),
      0 < t →
        (stepSM s t tilted survivor front).timer = t - 1 ∨
        (stepSM s t tilted survivor front).timer = AID_DEPLOY_DURATION) ∧
    (∀ (s : RobotState) (t : ℤ) (tilted survivor : Bool) (front : ℚ),
      1 < t →
        stepSM s t tilted survivor front = ⟨DEPLOYING_AID, t - 1, false⟩) ∧
    (∀ (s : RobotState) (tilted survivor : Bool) (front : ℚ),
      stepSM s 1 tilted survivor front =
        afterTimer s 0 tilted survivor front) ∧
    runSM ⟨DEPLOYING_AID, AID_DEPLOY_DURATION, 0⟩
        (List.replicate 49 (false, false, 1/2)) = ⟨DEPLOYING_AID, 1, 0⟩ ∧
    runSM ⟨DEPLOYING_AID, AID_DEPLOY_DURATION, 0⟩
        (List.replicate 50 (false, false, 1/2)) = ⟨SEARCHING, 0, 0⟩ := by
  have h49 : runSM ⟨DEPLOYING_AID, AID_DEPLOY_DURATION, 0⟩
      (List.replicate 49 (false, false, 1/2)) = ⟨DEPLOYING_AID, 1, 0⟩ := by
    have h := runSM_replicate_forced 49 AID_DEPLOY_DURATION 0
      (false, false, 1/2) (by unfold AID_DEPLOY_DURATION; norm_num)
    rw [h]
    norm_num [AID_DEPLOY_DURATION]
  have h50 : runSM ⟨DEPLOYING_AID, AID_DEPLOY_DURATION, 0⟩
      (List.replicate 50 (false, false, 1/2)) = ⟨SEARCHING, 0, 0⟩ := by
    rw [show (50 : ℕ) = 49 + 1 from rfl, List.replicate_succ',
      runSM_append, h49]
    show runSM (runStep ⟨DEPLOYING_AID, 1, 0⟩ (false, false, 1/2)) [] =
      ⟨SEARCHING, 0, 0⟩
    unfold runSM runStep
    rw [stepSM_eq]
    norm_num [decTimer, OBSTACLE_DISTANCE_THRESHOLD]
  refine ⟨?_, ?_, ?_, ?_, ?_, h49, h50⟩
  · intro s t tilted survivor front ht
    rw [stepSM_eq]
    unfold decTimer AID_DEPLOY_DURATION
    split_ifs <;> simp_all <;> omega
  · intro s t front hs ht
    rw [stepSM_eq]
    unfold decTimer
    split_ifs <;> simp_all
  · intro s t tilted survivor front ht
    rw [stepSM_eq]
    unfold decTimer
    split_ifs <;> simp_all <;> omega
  · intro s t tilted survivor front ht
    rw [stepSM_eq]
    split_ifs <;> simp_all
  · intro s tilted survivor front
    unfold stepSM
    norm_num

/-- Witness for C3 at concrete inputs. -/
theorem c3_timer_behavior_witness :
    0 ≤ (stepSM SEARCHING 0 false false 999).timer ∧
    stepSM SEARCHING 0 false true 999 =
      ⟨DEPLOYING_AID, AID_DEPLOY_DURATION, true⟩ ∧
    stepSM ROBOT_TILTED 7 true false 999 = ⟨DEPLOYING_AID, 6, false⟩ :=
  ⟨c3_timer_behavior.1 SEARCHING 0 false false 999 (by decide),
   c3_timer_behavior.2.1 SEARCHING 0 999 (by decide) (by decide),
   c3_timer_behavior.2.2.2.1 ROBOT_TILTED 7 true false 999 (by decide)⟩

/-- C4: with the tilted flag true the next state is ROBOT_TILTED whatever
the prior state was, except that an in-progress timer whose decremented
value is still nonzero forces DEPLOYING_AID even when tilted. -/
theorem c4_tilt_override (s : RobotState) (t : ℤ) (survivor : Bool)
    (front : ℚ) :
    stepSM s t true survivor front =
      if 1 < t then ⟨DEPLOYING_AID, t - 1, false⟩
      else ⟨ROBOT_TILTED, decTimer t, false⟩ := by
  rw [stepSM_eq]
  split_ifs <;> simp_all

/-- C5 counterexample: with the left and right readings exactly equal
(0.2 each) the avoidance branch takes the else arm and commands a LEFT
turn (left wheel -4, right wheel +4), refuting the claimed
turn-right-on-tie (left wheel positive, right wheel negative). -/
theorem c5_tie_counterexample :
    actuate AVOIDING_OBSTACLE 0 (1/5) (1/5) =
      ⟨-TURN_SPEED, TURN_SPEED, false, false⟩ ∧
    ¬ (0 < (actuate AVOIDING_OBSTACLE 0 (1/5) (1/5)).left_speed ∧
       (actuate AVOIDING_OBSTACLE 0 (1/5) (1/5)).right_speed < 0) := by
  norm_num [actuate, TURN_SPEED]

/-- C5 amended: in AVOIDING_OBSTACLE the commanded wheel velocities are a
fixed-magnitude opposite-direction pair turning toward the side with the
larger reading, with strict left < right as the right-turn condition:
left 0.2 and right 0.5 turns right (left wheel +4, right wheel -4),
reversed readings flip the direction, and exactly equal readings resolve
to turning LEFT. -/
theorem c5_avoid_turn_direction (t : ℤ) (l r : ℚ) :
    (l < r →
      actuate AVOIDING_OBSTACLE t l r =
        ⟨TURN_SPEED, -TURN_SPEED, false, false⟩) ∧
    (¬ l < r →
      actuate AVOIDING_OBSTACLE t l r =
        ⟨-TURN_SPEED, TURN_SPEED, false, false⟩) ∧
    actuate AVOIDING_OBSTACLE 0 (1/5) (1/2) =
      ⟨TURN_SPEED, -TURN_SPEED, false, false⟩ ∧
    actuate AVOIDING_OBSTACLE 0 (1/2) (1/5) =
      ⟨-TURN_SPEED, TURN_SPEED, false, false⟩ ∧
    (0 : ℚ) < TURN_SPEED := by
  refine ⟨?_, ?_, by norm_num [actuate], by norm_num [actuate],
    by norm_num [TURN_SPEED]⟩
  · intro h
    simp [actuate, h]
  · intro h
    simp [actuate, h]

/-- Witness for C5 (amended) at concrete readings. -/
theorem c5_avoid_turn_direction_witness :
    actuate AVOIDING_OBSTACLE 0 0 1 =
      ⟨TURN_SPEED, -TURN_SPEED, false, false⟩ ∧
    actuate AVOIDING_OBSTACLE 0 1 0 =
      ⟨-TURN_SPEED, TURN_SPEED, false, false⟩ :=
  ⟨(c5_avoid_turn_direction 0 0 1).1 (by norm_num),
   (c5_avoid_turn_direction 0 1 0).2.1 (by norm_num)⟩

/-- The early-exit object loop returns true exactly when the reading gate
holds and some object in the list classifies as a survivor. -/
lemma scanObjects_eq_true_iff (v : ℚ) (objs : List NodeRef) :
    scanObjects v objs = true ↔
      v < SURVIVOR_DETECTION_RANGE ∧ ∃ obj ∈ objs, is_survivor obj = true := by
  induction objs with
  | nil => simp [scanObjects]
  | cons o rest ih =>
    rw [scanObjects]
    split_ifs with h
    · simp only [true_iff]
      exact ⟨h.2, o, by simp, h.1⟩
    · rw [ih]
      constructor
      · rintro ⟨hv, obj, hm, hs⟩
        exact ⟨hv, obj, by simp [hm], hs⟩
      · rintro ⟨hv, obj, hm, hs⟩
        rcases List.mem_cons.mp hm with rfl | hm
        · exact absurd ⟨hs, hv⟩ h
        · exact ⟨hv, obj, hm, hs⟩

/-- The early-exit sensor loop returns true exactly when some available
sensor passes the reading gate with a recognized survivor. -/
lemma survivorScan_eq_true_iff (sensors : List DistSensor) :
    survivorScan sensors = true ↔
      ∃ s ∈ sensors, ∃ v objs, s = some (v, objs) ∧
        v < SURVIVOR_DETECTION_RANGE ∧
        ∃ obj ∈ objs, is_survivor obj = true := by
  induction sensors with
  | nil => simp [survivorScan]
  | cons s rest ih =>
    rw [survivorScan]
    split_ifs with h
    · simp only [true_iff]
      cases s with
      | none => simp [scanSensor] at h
      | some p =>
        obtain ⟨v, objs⟩ := p
        rw [scanSensor, scanObjects_eq_true_iff] at h
        exact ⟨some (v, objs), by simp, v, objs, rfl, h.1, h.2⟩
    · rw [ih]
      constructor
      · rintro ⟨s0, hm, hrest⟩
        exact ⟨s0, by simp [hm], hrest⟩
      · rintro ⟨s0, hm, v, objs, rfl, hv, hobj⟩
        rcases List.mem_cons.mp hm with rfl | hm
        · rw [scanSensor, scanObjects_eq_true_iff] at h
          exact absurd ⟨hv, hobj⟩ h
        · exact ⟨some (v, objs), hm, v, objs, rfl, hv, hobj⟩

/-- C6: the per-tick survivor flag computed by the sensor loop is true iff
some available sensor both has a recognized object classifying as a
survivor and currently reads strictly below SURVIVOR_DETECTION_RANGE
(0.4); the loop stops at the first match, which does not change the
boolean outcome; and an absent sensor device contributes the sentinel
reading 999, which can never pass the strict gate. -/
theorem c6_survivor_flag (sensors : List DistSensor) :
    (survivorScan sensors = true ↔
      ∃ s ∈ sensors, ∃ v objs, s = some (v, objs) ∧
        v < SURVIVOR_DETECTION_RANGE ∧
        ∃ obj ∈ objs, is_survivor obj = true) ∧
    ds_value none = 999 ∧
    ¬ ds_value none < SURVIVOR_DETECTION_RANGE ∧
    SURVIVOR_DETECTION_RANGE = 2/5 :=
  ⟨survivorScan_eq_true_iff sensors, rfl,
   by norm_num [ds_value, SURVIVOR_DETECTION_RANGE], rfl⟩

/-- C7: the survivor classifier returns true exactly on a non-null node
reference whose name lookup succeeds with the exact string
"SurvivorObstacle"; a null reference or a failed name lookup classifies
as false, and the designated label is a fixed non-empty string. -/
theorem c7_is_survivor_exact_match :
    is_survivor none = false ∧
    is_survivor (some none) = false ∧
    (∀ nm : String, is_survivor (some (some nm)) = true ↔
      nm = SURVIVOR_OBJECT_NAME) ∧
    SURVIVOR_OBJECT_NAME = "SurvivorObstacle" ∧
    SURVIVOR_OBJECT_NAME ≠ "" := by
  refine ⟨rfl, rfl, ?_, rfl, by decide⟩
  intro nm
  simp [is_survivor]

/-- C8: the actuator map sends ROBOT_TILTED to stopped wheels with both
LEDs solid on; DEPLOYING_AID to stopped wheels with both LEDs blinking as
a function of the countdown modulo the period 4 (on for the 2 low
residues of each period, off otherwise); and SEARCHING to both wheels
forward at the cruise speed 5. -/
theorem c8_actuator_map (t : ℤ) (l r : ℚ) :
    actuate ROBOT_TILTED t l r = ⟨0, 0, true, true⟩ ∧
    (actuate DEPLOYING_AID t l r).left_speed = 0 ∧
    (actuate DEPLOYING_AID t l r).right_speed = 0 ∧
    ((actuate DEPLOYING_AID t l r).left_led = true ↔ t % 4 < 2) ∧
    (actuate DEPLOYING_AID t l r).right_led =
      (actuate DEPLOYING_AID t l r).left_led ∧
    actuate SEARCHING t l r = ⟨FORWARD_SPEED, FORWARD_SPEED, false, false⟩ ∧
    FORWARD_SPEED = 5 ∧ (0 : ℚ) < FORWARD_SPEED := by
  refine ⟨rfl, ?_, ?_, ?_, ?_, rfl, rfl, by norm_num [FORWARD_SPEED]⟩ <;>
    simp only [actuate] <;> split_ifs <;> simp_all

/-- C9: the three-outcome error taxonomy.  A missing wheel motor makes
startup exit with status 1 (nonzero) before the loop; a missing optional
sensor degrades to sentinel or no-op values (reading 999, tilted false)
with the loop continuing; and an absent emitter only suppresses the send:
the resolved state and the counter of a tick never depend on emitter
presence, no message is ever sent while the emitter is absent, and a
survivor rising edge still commits the machine to DEPLOYING_AID with the
timer armed on that very tick. -/
theorem c9_error_taxonomy :
    (∀ lm rm : Bool, startupExitCode lm rm = none ↔ lm = true ∧ rm = true) ∧
    (∀ lm rm : Bool, ¬ (lm = true ∧ rm = true) →
      startupExitCode lm rm = some 1) ∧
    (1 : ℕ) ≠ 0 ∧
    ds_value none = 999 ∧
    tiltCheck none = false ∧
    (∀ (d : Devices) (s : RobotState) (t : ℤ) (e : Bool),
      (tick d s t).state = (tick { d with emitter := e } s t).state ∧
      (tick d s t).timer = (tick { d with emitter := e } s t).timer) ∧
    (∀ (d : Devices) (s : RobotState) (t : ℤ), d.emitter = false →
      (tick d s t).sent = false) ∧
    (∀ (d : Devices) (s : RobotState) (t : ℤ),
      tiltCheck d.accelerometer = false →
      survivorScan [d.ds_front, d.ds_left, d.ds_right] = true →
      s ≠ DEPLOYING_AID → ¬ 1 < t →
      (tick d s t).state = DEPLOYING_AID ∧
      (tick d s t).timer = AID_DEPLOY_DURATION) := by
  refine ⟨by decide, by decide, by decide, rfl, rfl, ?_, ?_, ?_⟩
  · intro d s t e
    exact ⟨rfl, rfl⟩
  · intro d s t he
    simp [tick, he]
  · intro d s t htilt hsurv hs ht
    have hstep : stepSM s t (tiltCheck d.accelerometer)
        (survivorScan [d.ds_front, d.ds_left, d.ds_right])
        (ds_value d.ds_front) =
        ⟨DEPLOYING_AID, AID_DEPLOY_DURATION, true⟩ := by
      rw [stepSM_eq, htilt, hsurv]
      simp [ht, hs]
    constructor <;> simp [tick, hstep]

/-- A concrete device assignment for the C9 witness: both motors present
at startup is not assumed; the emitter is absent and the front sensor
recognizes a survivor within range. -/
def c9Devices : Devices :=
  { ds_front := some (1/5, [some (some "SurvivorObstacle")])
    ds_left := none
    ds_right := none
    accelerometer := none
    emitter := false }

/-- Witness for C9 at concrete inputs. -/
theorem c9_error_taxonomy_witness :
    startupExitCode false true = some 1 ∧
    (tick c9Devices SEARCHING 0).sent = false ∧
    (tick c9Devices SEARCHING 0).state = DEPLOYING_AID ∧
    (tick c9Devices SEARCHING 0).timer = AID_DEPLOY_DURATION :=
  ⟨c9_error_taxonomy.2.1 false true (by simp),
   c9_error_taxonomy.2.2.2.2.2.2.1 c9Devices SEARCHING 0 rfl,
   (c9_error_taxonomy.2.2.2.2.2.2.2 c9Devices SEARCHING 0 rfl
     (by norm_num [c9Devices, survivorScan, scanSensor, scanObjects,
       is_survivor, SURVIVOR_OBJECT_NAME, SURVIVOR_DETECTION_RANGE])
     (by simp) (by norm_num)).1,
   (c9_error_taxonomy.2.2.2.2.2.2.2 c9Devices SEARCHING 0 rfl
     (by norm_num [c9Devices, survivorScan, scanSensor, scanObjects,
       is_survivor, SURVIVOR_OBJECT_NAME, SURVIVOR_DETECTION_RANGE])
     (by simp) (by norm_num)).2⟩

/-- C10: once the counter has expired (0 at the start of the tick), with
no tilt and detection still true while the state is already
DEPLOYING_AID, the tick changes nothing: the state stays DEPLOYING_AID,
the counter stays 0 and no send occurs — so under continuously true
detection the machine stays halted in DEPLOYING_AID for any number of
further ticks. -/
theorem c10_saturated_after_expiry (n : ℕ) (front : ℚ) :
    stepSM DEPLOYING_AID 0 false true front = ⟨DEPLOYING_AID, 0, false⟩ ∧
    runSM ⟨DEPLOYING_AID, 0, 0⟩ (List.replicate n (false, true, front)) =
      ⟨DEPLOYING_AID, 0, 0⟩ := by
  have hstep : stepSM DEPLOYING_AID 0 false true front =
      ⟨DEPLOYING_AID, 0, false⟩ := by
    rw [stepSM_eq]
    norm_num [decTimer]
  refine ⟨hstep, ?_⟩
  induction n with
  | zero => rfl
  | succ n ih =>
    rw [List.replicate_succ]
    show runSM (runStep ⟨DEPLOYING_AID, 0, 0⟩ (false, true, front))
      (List.replicate n (false, true, front)) = ⟨DEPLOYING_AID, 0, 0⟩
    have hrs : runStep ⟨DEPLOYING_AID, 0, 0⟩ (false, true, front) =
        ⟨DEPLOYING_AID, 0, 0⟩ := by
      unfold runStep
      simp [hstep]
    rw [hrs]
    exact ih

end BoebotRescue
